import Mathlib

/-!
Verification development for the AnkiCatalunya deck generator.

The Python sources (`run.py`, `src/WikiApi.py`, `src/models.py`) are shallowly
embedded below: pure string manipulation is translated to Lean functions on
`String`/`List Char`, network responses become explicit oracle inputs, raised
exceptions become `Except`/`Option` results, and the logging calls are made
explicit as returned lists of log entries.
-/

namespace AnkiCatalunya

/-! ## Python string-primitive semantics -/

/-- Substring scan: does `sub` occur (as a contiguous run) in the list? -/
def containsSubAux (sub : List Char) : List Char → Bool
  | [] => sub.isPrefixOf []
  | c :: rest => sub.isPrefixOf (c :: rest) || containsSubAux sub rest

/-- Python `sub in s` on strings: substring containment. -/
def containsSub (s sub : String) : Bool :=
  containsSubAux sub.data s.data

/-- Python `s.endswith(suf)`. -/
def pyEndsWith (s suf : String) : Bool :=
  suf.data.isSuffixOf s.data

/-- Python `s.startswith(p)`. -/
def pyStartsWith (s p : String) : Bool :=
  p.data.isPrefixOf s.data

/-- Python `s.lower()`, restricted to ASCII case folding (every constant the
sources compare against is plain ASCII). -/
def pyLower (s : String) : String :=
  ⟨s.data.map Char.toLower⟩

/-- Python `sep.join(l)`. -/
def pyJoin (sep : String) : List String → String
  | [] => ""
  | [s] => s
  | s :: rest => s ++ sep ++ pyJoin sep rest

/-- Fuel-indexed scanner for Python `str.replace`: scan left to right, and at
each position that starts with `pat` emit `rep` and skip past the match.  The
fuel only serves totality; with `fuel ≥ l.length` and `pat ≠ []` it never runs
out. -/
def replaceFuel (pat rep : List Char) : Nat → List Char → List Char
  | _, [] => []
  | 0, l => l
  | fuel + 1, c :: rest =>
    if pat.isPrefixOf (c :: rest) then
      rep ++ replaceFuel pat rep fuel (List.drop pat.length (c :: rest))
    else
      c :: replaceFuel pat rep fuel rest

/-- Python `s.replace(pat, rep)`: every non-overlapping occurrence of `pat`,
left to right, is replaced by `rep`.  (The empty-pattern case never occurs in
this codebase and is left as the identity.) -/
def pyReplace (s pat rep : String) : String :=
  if pat.data.isEmpty then s
  else ⟨replaceFuel pat.data rep.data s.data.length s.data⟩

/-- Split a character list on a separator character; always returns at least
one (possibly empty) component, like Python `str.split(sep)`. -/
def splitChar (sep : Char) : List Char → List (List Char)
  | [] => [[]]
  | c :: rest =>
    let r := splitChar sep rest
    if c == sep then [] :: r
    else
      match r with
      | [] => [[c]]
      | h :: t => (c :: h) :: t

/-- Python `pathlib.Path(s).name`: the final path component (the last
segment after splitting on `/` that is neither empty nor `"."`). -/
def pathName (s : String) : String :=
  ⟨(((splitChar '/' s.data).filter (fun comp => !comp.isEmpty && comp ≠ ['.'])).getLastD [])⟩

/-- Python `s.split(":")[-1]`: the suffix after the last colon (the whole
string when no colon occurs). -/
def lastSplitColon (s : String) : String :=
  ⟨(s.data.reverse.takeWhile (fun c => c ≠ ':')).reverse⟩

/-! ## Logging model

`logging.error` / `logging.warning` calls are modelled as emitted log
entries. -/

inductive LogLevel where
  | error
  | warning
deriving DecidableEq, Repr

structure LogEntry where
  level : LogLevel
  msg : String
deriving DecidableEq, Repr

/-! ## Data model (`src/src/models.py`) -/

/-- Record `ComarcaData` from `src/src/models.py`: one comarca's collected facts.
The three `Optional[str]` fields are `Option String`. -/
structure ComarcaData where
  comarca : String
  capital : Option String := none
  map_url : Option String := none
  escut_url : Option String := none
deriving DecidableEq, Repr

/-! ## Note building (`get_notes`, src/run.py lines 164-177)

A note is modelled by its list of 8 field values.  Python field values may be
`None` (when `comarca.capital` is `None` it is passed through verbatim), so a
field value is `Option String`.  `Path(comarca.escut_url)` and
`Path(comarca.map_url)` raise `TypeError` when the field is `None`; building
the fields therefore fails (`none`) when either media field is unset. -/
def get_note_fields (c : ComarcaData) : Option (List (Option String)) :=
  match c.escut_url, c.map_url with
  | some escut, some mapPath =>
    some [c.capital, some "", some "", some c.comarca, some "",
      some ("<img src=\"" ++ pathName escut ++ "\">"), some "",
      some ("<img src=\"" ++ pathName mapPath ++ "\">")]
  | _, _ => none

/-- Function `get_notes` (src/run.py): one note per record, built by a list
comprehension that raises at the first record whose media fields are unset. -/
def get_notes (data : List ComarcaData) : Option (List (List (Option String))) :=
  data.mapM get_note_fields

/-! ## Validation (`validate_data`, src/run.py lines 112-126) -/

/-- Python truthiness of an `Optional[str]`: `None` and `""` are falsy. -/
def truthy : Option String → Bool
  | none => false
  | some s => !s.data.isEmpty

/-- The comarca names of the records whose given field is falsy
(`[comarca.comarca for comarca in data if not getattr(comarca, field)]`). -/
def missingNames (data : List ComarcaData) (get : ComarcaData → Option String) : List String :=
  (data.filter (fun c => !truthy (get c))).map (fun c => c.comarca)

/-- The message `f"Missing {field} for comarques: {','.join(missing)}"`. -/
def missingMsg (fieldName : String) (missing : List String) : String :=
  "Missing " ++ fieldName ++ " for comarques: " ++ pyJoin "," missing

/-- The field/required pairs `validate_data` iterates over, in source order. -/
def fieldChecks : List ((ComarcaData → Option String) × String × Bool) :=
  [(ComarcaData.capital, "capital", true),
   (ComarcaData.map_url, "map_url", true),
   (ComarcaData.escut_url, "escut_url", false)]

/-- The loop body of `validate_data`: an early `return False` with an error
log at the first required field having missing records; a warning (and
continue) for a non-required field with missing records. -/
def validate_go (data : List ComarcaData) :
    List ((ComarcaData → Option String) × String × Bool) → Bool × List LogEntry
  | [] => (true, [])
  | (get, fieldName, required) :: rest =>
    let missing := missingNames data get
    if !missing.isEmpty && required then
      (false, [⟨.error, missingMsg fieldName missing⟩])
    else if !missing.isEmpty then
      let r := validate_go data rest
      (r.1, ⟨.warning, missingMsg fieldName missing⟩ :: r.2)
    else
      validate_go data rest

/-- Function `validate_data` (src/run.py): overall pass/fail plus the emitted log. -/
def validate_data (data : List ComarcaData) : Bool × List LogEntry :=
  validate_go data fieldChecks

/-! ## Category listing (`get_comarques_categories` / `is_comarca`,
src/run.py lines 16-28, and `WikipediaAPIHandler.get_comarques` /
`WikipediaAPIHandler.is_comarca`, src/src/WikiApi.py lines 28-41) -/

/-- Constant `wikipediaapi.Namespace.CATEGORY`. -/
def categoryNamespace : Nat := 14

/-- A member of the remote category listing, as the code inspects it: its
title, its namespace marker, and the titles of its own parent categories
(the values iterated by `page.categories.values()`). -/
structure CatMember where
  title : String
  ns : Nat
  categories : List String
deriving DecidableEq, Repr

/-- Function `is_comarca` (identical in src/run.py and src/src/WikiApi.py): reject a
title containing "de catalunya" case-insensitively, otherwise accept exactly
when some parent category's lowercased title is
"categoria:comarques de catalunya". -/
def is_comarca (page : CatMember) : Bool :=
  if containsSub (pyLower page.title) "de catalunya" then false
  else page.categories.any (fun cat => pyLower cat == "categoria:comarques de catalunya")

/-- Function `get_comarques_categories` (src/run.py): keep the category members whose
namespace is the category namespace and which pass `is_comarca`. -/
def get_comarques_categories (members : List CatMember) : List CatMember :=
  members.filter (fun page => page.ns == categoryNamespace && is_comarca page)

/-- Modelled from the spec: the `ComarcaPage` record class imported by
`src/src/WikiApi.py` (`from models import ComarcaPage`) is not present under
`src` — `src/src/models.py` only defines `ComarcaData`.  Per the spec's
Subregion Record (§3) it carries the subregion name and the capital plus the
two media fields, which are the ones the alternate client populates. -/
structure ComarcaPage where
  comarca : String
  capital : Option String := none
  map_url : Option String := none
  escut_url : Option String := none
deriving DecidableEq, Repr

/-- Method `WikipediaAPIHandler.get_comarques` (src/src/WikiApi.py): the same filter
as `get_comarques_categories`, then each surviving member becomes a
`ComarcaPage` named by `page.title.split(":")[-1]`. -/
def handler_get_comarques (members : List CatMember) : List ComarcaPage :=
  (members.filter (fun page => page.ns == categoryNamespace && is_comarca page)).map
    (fun page => { comarca := lastSplitColon page.title })

/-! ## Image-title listing (`get_image_titles`, src/run.py lines 30-42, and
`WikimediaAPIHandler.get_image_titles`, src/src/WikiApi.py lines 65-89)

The decoded JSON response is modelled by its `query.pages` object: an
insertion-ordered association of page ids to entries, where an entry may or
may not carry an `images` list.  `next(iter(...))` takes the first key and
raises `StopIteration` on an empty object; a missing `images` key raises
`KeyError` where the code subscripts it unchecked. -/

structure ImageEntry where
  title : String
deriving DecidableEq, Repr

structure PageEntry where
  images : Option (List ImageEntry)
deriving DecidableEq, Repr

structure PagesResponse where
  pages : List (String × PageEntry)
deriving DecidableEq, Repr

/-- The step `page_id = next(iter(response["query"]["pages"]))` followed by the lookup
of that id: the first page entry, or a raised `StopIteration`. -/
def firstPage (resp : PagesResponse) : Except String (String × PageEntry) :=
  match resp.pages with
  | [] => .error "StopIteration"
  | entry :: _ => .ok entry

/-- Function `get_image_titles` (src/run.py): subscripts `["images"]` unchecked, so a
page entry without an `images` key raises `KeyError`; otherwise keeps the
titles ending in ".svg". -/
def get_image_titles (resp : PagesResponse) : Except String (List String) :=
  match firstPage resp with
  | .error e => .error e
  | .ok (_, entry) =>
    match entry.images with
    | none => .error "KeyError: images"
    | some images =>
      .ok ((images.filter (fun image => pyEndsWith image.title ".svg")).map ImageEntry.title)

/-- Method `WikimediaAPIHandler.get_image_titles` (src/src/WikiApi.py): checks
`'images' in ...`; when the key is absent it logs a warning naming the page
and returns the empty list; otherwise returns all titles unfiltered. -/
def handler_get_image_titles (page_title : String) (resp : PagesResponse) :
    Except String (List String × List LogEntry) :=
  match firstPage resp with
  | .error e => .error e
  | .ok (_, entry) =>
    match entry.images with
    | some images => .ok (images.map ImageEntry.title, [])
    | none => .ok ([], [⟨.warning, "No images found for " ++ page_title⟩])

/-! ## Image-URL resolution (`get_image_info`, src/run.py lines 45-62, and
`WikimediaAPIHandler.get_image_info`, src/src/WikiApi.py lines 48-63)

Both variants build the same query parameters; the `titles` value is
`image_title.replace("Fitxer:", "File:")`. -/

/-- The `params` dict of `get_image_info` (identical in both variants). -/
def get_image_info_params (image_title : String) : List (String × String) :=
  [("action", "query"), ("prop", "imageinfo"), ("format", "json"), ("iiprop", "url"),
   ("titles", pyReplace image_title "Fitxer:" "File:")]

/-! ## SVG download (`download_svg`, src/run.py lines 64-74)

The `try` body runs four stages in order: `requests.get(url, ...)`,
`response.raise_for_status()`, `open(filename, 'wb')`, and
`file.write(response.content)`.  Each stage may raise; a per-stage oracle
fixes each stage's outcome, and the state the destination is left in is
derived from the stage ordering: the first three stages raise before any
file exists, while a successful `open(filename, 'wb')` creates (or
truncates) the destination, so a `write` that raises afterwards leaves the
partially written bytes behind.  `download_svg` wraps the body in
`try/except Exception`. -/

/-- State of the destination path after the call. -/
inductive FileState where
  | absent
  | file (content : List Nat)
deriving DecidableEq, Repr

/-- Per-stage outcomes of the network and filesystem effects inside the
`try` body: the response body fetched by `requests.get` (or its raised
exception text), the outcome of `response.raise_for_status()`, the outcome
of `open(filename, 'wb')`, and the outcome of `file.write` — on a write
failure, the bytes the OS persisted before raising, with the exception
text. -/
structure DlEffects where
  getResult : Except String (List Nat)
  statusResult : Except String Unit
  openResult : Except String Unit
  writeResult : Except (List Nat × String) Unit
deriving Repr

structure DlResult where
  destination : FileState
  logs : List LogEntry
deriving DecidableEq, Repr

/-- The `try` body of `download_svg`, stage by stage in source order.
Returns the state the destination is left in, plus the full content when
every stage succeeded or the first raised exception's text.  No file exists
until `open` succeeds; from that point the destination exists, so a `write`
failure leaves a file holding the partially written bytes. -/
def download_body (fx : DlEffects) : FileState × Except String (List Nat) :=
  match fx.getResult with
  | .error e => (.absent, .error e)
  | .ok content =>
    match fx.statusResult with
    | .error e => (.absent, .error e)
    | .ok _ =>
      match fx.openResult with
      | .error e => (.absent, .error e)
      | .ok _ =>
        match fx.writeResult with
        | .error (written, e) => (.file written, .error e)
        | .ok _ => (.file content, .ok content)

/-- Function `download_svg` (src/run.py): catches every exception from the
body, logs `f"Failed to download {url}: {e}"` as an error, and returns
normally either way; the destination stays in whatever state the body left
it. -/
def download_svg (fx : DlEffects) (url filename : String) : DlResult :=
  match download_body fx with
  | (fs, .ok _) => ⟨fs, []⟩
  | (fs, .error e) => ⟨fs, [⟨.error, "Failed to download " ++ url ++ ": " ++ e⟩]⟩

/-- The files present at `path` given the destination state. -/
def destFiles (path : String) (fs : FileState) : List (String × List Nat) :=
  match fs with
  | .absent => []
  | .file content => [(path, content)]

/-! ## Capital scraping (`get_comarca_capital_from_html`, src/run.py lines
76-92)

The parsed page is a tree of elements and text nodes.  `soup.find('th',
string='Capital')` is the first (document-order) descendant `th` whose
single text child is exactly "Capital"; the code then takes its `.parent`,
finds the first `a` descendant of that row, and returns its `.text` (the
concatenation of all text inside the link). -/

inductive Html where
  | txt : String → Html
  | elem : String → List Html → Html
deriving Repr

/-- Does this node match `soup.find('th', string='Capital')`: a `th` whose
string content is exactly "Capital"? -/
def isCapitalTh (h : Html) : Bool :=
  match h with
  | .elem "th" [.txt s] => s == "Capital"
  | _ => false

/-- Is this node an `a` (hyperlink) element? -/
def isLinkTag (h : Html) : Bool :=
  match h with
  | .elem "a" _ => true
  | _ => false

mutual
/-- The `.parent` of the first matching `th` among the proper descendants of
`h`, in document (pre-)order; `none` when no descendant matches. -/
def findCapitalRow : Html → Option Html
  | .txt _ => none
  | .elem t cs => findCapitalRowIn (.elem t cs) cs
/-- Scan a child list (children of `parent`), each child before its own
subtree. -/
def findCapitalRowIn (parent : Html) : List Html → Option Html
  | [] => none
  | c :: rest =>
    if isCapitalTh c then some parent
    else
      match findCapitalRow c with
      | some r => some r
      | none => findCapitalRowIn parent rest
end

mutual
/-- The search `row.find('a')`: the first descendant `a` element in document order. -/
def findLink : Html → Option Html
  | .txt _ => none
  | .elem _ cs => findLinkIn cs
def findLinkIn : List Html → Option Html
  | [] => none
  | c :: rest =>
    if isLinkTag c then some c
    else
      match findLink c with
      | some a => some a
      | none => findLinkIn rest
end

mutual
/-- Does some proper descendant of `h` match `isCapitalTh`? -/
def hasCapitalTh : Html → Bool
  | .txt _ => false
  | .elem _ cs => hasCapitalThIn cs
def hasCapitalThIn : List Html → Bool
  | [] => false
  | c :: rest => isCapitalTh c || hasCapitalTh c || hasCapitalThIn rest
end

mutual
/-- Does some proper descendant of `h` match `isLinkTag`? -/
def hasLink : Html → Bool
  | .txt _ => false
  | .elem _ cs => hasLinkIn cs
def hasLinkIn : List Html → Bool
  | [] => false
  | c :: rest => isLinkTag c || hasLink c || hasLinkIn rest
end

mutual
/-- An element's `.text`: the concatenation of all text inside it. -/
def htmlText : Html → String
  | .txt s => s
  | .elem _ cs => htmlTextIn cs
def htmlTextIn : List Html → String
  | [] => ""
  | c :: rest => htmlText c ++ htmlTextIn rest
end

/-- Function `get_comarca_capital_from_html` (src/run.py), applied to the already
fetched and parsed page. -/
def get_comarca_capital_from_html (doc : Html) : String :=
  match findCapitalRow doc with
  | some capital_row =>
    match findLink capital_row with
    | some capital_link => htmlText capital_link
    | none => "Capital not found in the expected format"
  | none => "Capital row not found"

/-! ## Record assembly (`get_comarca_data`, src/run.py lines 94-110)

The remote services are an oracle environment: the JSON served for the
image-title query, the URL resolved per image title, the parsed page served
per URL, and the outcome of each download attempt.  All other behavior is the
source's own control flow. -/

structure Env where
  imagesResponse : String → PagesResponse
  imageInfo : String → Option String
  pageHtml : String → Html
  dl : Option String → String → DlEffects

/-- Python `f"...{x}..."` rendering of an `Optional[str]` value: `None`
renders as the four characters "None". -/
def pyStrOpt : Option String → String
  | none => "None"
  | some s => s

/-- The call `setattr(data, f"{field}_url", path)` for the two field names that occur. -/
def setMediaField (d : ComarcaData) (field path : String) : ComarcaData :=
  if field == "map" then { d with map_url := some path }
  else if field == "escut" then { d with escut_url := some path }
  else d

/-- Intermediate state of `get_comarca_data`: the record under construction,
the log entries emitted so far, and the files written so far. -/
structure AssembleOut where
  record : ComarcaData
  logs : List LogEntry
  written : List (String × List Nat)
deriving DecidableEq, Repr

/-- The destination path `f"imgs/{comarca_path}_{field}.svg"`. -/
def mediaPath (comarca_path field : String) : String :=
  "imgs/" ++ comarca_path ++ "_" ++ field ++ ".svg"

/-- One iteration of the `for urls, field in [(map_urls, "map"),
(escut_urls, "escut")]` loop: warn and continue when there is no candidate,
otherwise download the first candidate's URL to
`imgs/{comarca_path}_{field}.svg` and set the record field to that path. -/
def mediaStep (env : Env) (comarca_name comarca_path : String) (st : AssembleOut)
    (urls : List (Option String)) (field : String) : AssembleOut :=
  match urls with
  | [] =>
    { st with logs := st.logs ++ [⟨.warning, "No " ++ field ++ " found for " ++ comarca_name⟩] }
  | u0 :: _ =>
    let path := mediaPath comarca_path field
    let dlres := download_svg (env.dl u0 path) (pyStrOpt u0) path
    { record := setMediaField st.record field path,
      logs := st.logs ++ dlres.logs,
      written := st.written ++ destFiles path dlres.destination }

/-- The URL `f"https://ca.wikipedia.org/wiki/{comarca_path}"`. -/
def wikiPageUrl (slug : String) : String :=
  "https://ca.wikipedia.org/wiki/" ++ slug

/-- Function `get_comarca_data` (src/run.py).  `get_image_titles` may raise (its
`KeyError`/`StopIteration` propagate), hence the `Except`; on success the
function always produces a record. -/
def get_comarca_data (env : Env) (comarca_name : String) : Except String AssembleOut :=
  match get_image_titles (env.imagesResponse comarca_name) with
  | .error e => .error e
  | .ok images =>
    let map_urls := (images.filter (fun image => pyEndsWith image "a Catalunya.svg")).map env.imageInfo
    let escut_urls := (images.filter (fun image => containsSub image "Coat")).map env.imageInfo
    let comarca_path := pyReplace comarca_name " " "_"
    let data : ComarcaData :=
      { comarca := comarca_name,
        capital := some (get_comarca_capital_from_html (env.pageHtml (wikiPageUrl comarca_path))) }
    .ok (([(map_urls, "map"), (escut_urls, "escut")]).foldl
      (fun st p => mediaStep env comarca_name comarca_path st p.1 p.2) ⟨data, [], []⟩)

/-! ## Alternate client's record population
(`WikimediaAPIHandler.get_images_for_comarca`, src/src/WikiApi.py lines
91-104) -/

structure HandlerEnv where
  imageTitles : String → List String
  imageInfo : String → Option String

/-- One iteration of the title loop: a title containing "Mapa" sets the map
field, otherwise one containing "Escut" or "Coat of arms" sets the escut
field, otherwise the record is untouched. -/
def populate_step (imageInfo : String → Option String) (c : ComarcaPage) (title : String) :
    ComarcaPage :=
  if containsSub title "Mapa" then { c with map_url := imageInfo title }
  else if containsSub title "Escut" || containsSub title "Coat of arms" then
    { c with escut_url := imageInfo title }
  else c

/-- Method `get_images_for_comarca` (src/src/WikiApi.py): fetch the image titles for
the record's comarca and fold the population step over them (the in-place
mutation of the Python record becomes state passing). -/
def get_images_for_comarca (env : HandlerEnv) (c : ComarcaPage) : ComarcaPage :=
  (env.imageTitles c.comarca).foldl (populate_step env.imageInfo) c

/-! ## Concrete sample records -/

/-- The fully populated Bages record of the spec's note-mapping example. -/
def bagesFull : ComarcaData :=
  { comarca := "Bages", capital := some "Manresa",
    map_url := some "imgs/Bages_map.svg", escut_url := some "imgs/Bages_escut.svg" }

/-- A record missing only its escut field. -/
def bagesNoEscut : ComarcaData :=
  { comarca := "Bages", capital := some "Manresa", map_url := some "imgs/Bages_map.svg" }

/-! ## Helper lemmas -/

theorem mapM_option_eq_none {α β : Type} (f : α → Option β) (l : List α) (x : α)
    (hx : x ∈ l) (hfx : f x = none) : l.mapM f = none := by
  rw [← List.mapM'_eq_mapM]
  induction l with
  | nil => cases hx
  | cons a t ih =>
    rcases List.mem_cons.mp hx with h | h
    · subst h; simp [List.mapM', hfx]
    · cases hfa : f a <;> simp [List.mapM', hfa, ih h]

theorem missingNames_eq_nil_iff (data : List ComarcaData) (get : ComarcaData → Option String) :
    missingNames data get = [] ↔ ∀ c ∈ data, truthy (get c) = true := by
  simp [missingNames, List.map_eq_nil_iff, List.filter_eq_nil_iff]

theorem missingNames_ne_nil_iff (data : List ComarcaData) (get : ComarcaData → Option String) :
    missingNames data get ≠ [] ↔ ∃ c ∈ data, truthy (get c) = false := by
  rw [Ne, missingNames_eq_nil_iff]
  push_neg
  simp [Bool.not_eq_true]

theorem validate_data_shape1 (data : List ComarcaData)
    (h1 : missingNames data ComarcaData.capital ≠ []) :
    validate_data data =
      (false, [⟨.error, missingMsg "capital" (missingNames data ComarcaData.capital)⟩]) := by
  simp [validate_data, fieldChecks, validate_go, List.isEmpty_iff, h1]

theorem validate_data_shape2 (data : List ComarcaData)
    (h1 : missingNames data ComarcaData.capital = [])
    (h2 : missingNames data ComarcaData.map_url ≠ []) :
    validate_data data =
      (false, [⟨.error, missingMsg "map_url" (missingNames data ComarcaData.map_url)⟩]) := by
  simp [validate_data, fieldChecks, validate_go, List.isEmpty_iff, h1, h2]

theorem validate_data_shape3 (data : List ComarcaData)
    (h1 : missingNames data ComarcaData.capital = [])
    (h2 : missingNames data ComarcaData.map_url = [])
    (h3 : missingNames data ComarcaData.escut_url ≠ []) :
    validate_data data =
      (true, [⟨.warning, missingMsg "escut_url" (missingNames data ComarcaData.escut_url)⟩]) := by
  simp [validate_data, fieldChecks, validate_go, List.isEmpty_iff, h1, h2, h3]

theorem validate_data_shape4 (data : List ComarcaData)
    (h1 : missingNames data ComarcaData.capital = [])
    (h2 : missingNames data ComarcaData.map_url = [])
    (h3 : missingNames data ComarcaData.escut_url = []) :
    validate_data data = (true, []) := by
  simp [validate_data, fieldChecks, validate_go, List.isEmpty_iff, h1, h2, h3]

/-! ## Claims about note building and validation -/

/-- C1: for every record with all four fields set, `get_note_fields` produces
the 8 field values, in schema order: the capital text, "", "", the comarca
text, "", the HTML fragment over the basename of `escut_url`, "", and the
HTML fragment over the basename of `map_url`; and at the fully populated
Bages record `get_notes` yields exactly the listed literal field values. -/
theorem claim_C1 (c : ComarcaData) (cap escut mapPath : String)
    (hcap : c.capital = some cap) (hescut : c.escut_url = some escut)
    (hmap : c.map_url = some mapPath) :
    get_note_fields c =
      some [some cap, some "", some "", some c.comarca, some "",
        some ("<img src=\"" ++ pathName escut ++ "\">"), some "",
        some ("<img src=\"" ++ pathName mapPath ++ "\">")] ∧
    get_notes [bagesFull] =
      some [[some "Manresa", some "", some "", some "Bages", some "",
        some "<img src=\"Bages_escut.svg\">", some "",
        some "<img src=\"Bages_map.svg\">"]] := by
  refine ⟨?_, by decide⟩
  simp [get_note_fields, hescut, hmap, hcap]

/-- Witness for C1: the fully populated Bages record satisfies the
hypotheses, and its note fields are the claimed literals. -/
theorem claim_C1_witness :
    get_note_fields bagesFull =
      some [some "Manresa", some "", some "", some "Bages", some "",
        some ("<img src=\"" ++ pathName "imgs/Bages_escut.svg" ++ "\">"), some "",
        some ("<img src=\"" ++ pathName "imgs/Bages_map.svg" ++ "\">")] ∧
    get_notes [bagesFull] =
      some [[some "Manresa", some "", some "", some "Bages", some "",
        some "<img src=\"Bages_escut.svg\">", some "",
        some "<img src=\"Bages_map.svg\">"]] :=
  claim_C1 bagesFull "Manresa" "imgs/Bages_escut.svg" "imgs/Bages_map.svg" rfl rfl rfl

/-- C2: `validate_data` succeeds iff every record has a truthy capital and a
truthy map_url; any capital gap makes it fail with only the capital error
logged (so a map_url gap in another record goes unreported); with capitals
complete a map_url gap fails with only the map_url error; records missing
only `escut_url` give a warning but success; complete data gives success
with no log. -/
theorem claim_C2 (data : List ComarcaData) :
    ((validate_data data).1 = true ↔
      ∀ c ∈ data, truthy c.capital = true ∧ truthy c.map_url = true) ∧
    ((∃ c ∈ data, truthy c.capital = false) →
      validate_data data =
        (false, [⟨.error, missingMsg "capital" (missingNames data ComarcaData.capital)⟩])) ∧
    ((∀ c ∈ data, truthy c.capital = true) → (∃ c ∈ data, truthy c.map_url = false) →
      validate_data data =
        (false, [⟨.error, missingMsg "map_url" (missingNames data ComarcaData.map_url)⟩])) ∧
    ((∀ c ∈ data, truthy c.capital = true) → (∀ c ∈ data, truthy c.map_url = true) →
      (∃ c ∈ data, truthy c.escut_url = false) →
      validate_data data =
        (true, [⟨.warning, missingMsg "escut_url" (missingNames data ComarcaData.escut_url)⟩])) ∧
    ((∀ c ∈ data, truthy c.capital = true ∧ truthy c.map_url = true ∧ truthy c.escut_url = true) →
      validate_data data = (true, [])) := by
  refine ⟨?_, ?_, ?_, ?_, ?_⟩
  · constructor
    · intro hv
      by_cases h1 : missingNames data ComarcaData.capital = []
      · by_cases h2 : missingNames data ComarcaData.map_url = []
        · intro c hc
          exact ⟨(missingNames_eq_nil_iff data ComarcaData.capital).mp h1 c hc,
            (missingNames_eq_nil_iff data ComarcaData.map_url).mp h2 c hc⟩
        · rw [validate_data_shape2 data h1 h2] at hv; cases hv
      · rw [validate_data_shape1 data h1] at hv; cases hv
    · intro hall
      have h1 : missingNames data ComarcaData.capital = [] :=
        (missingNames_eq_nil_iff data ComarcaData.capital).mpr (fun c hc => (hall c hc).1)
      have h2 : missingNames data ComarcaData.map_url = [] :=
        (missingNames_eq_nil_iff data ComarcaData.map_url).mpr (fun c hc => (hall c hc).2)
      by_cases h3 : missingNames data ComarcaData.escut_url = []
      · rw [validate_data_shape4 data h1 h2 h3]
      · rw [validate_data_shape3 data h1 h2 h3]
  · intro hex
    exact validate_data_shape1 data ((missingNames_ne_nil_iff data ComarcaData.capital).mpr hex)
  · intro hall hex
    exact validate_data_shape2 data
      ((missingNames_eq_nil_iff data ComarcaData.capital).mpr hall)
      ((missingNames_ne_nil_iff data ComarcaData.map_url).mpr hex)
  · intro hall1 hall2 hex
    exact validate_data_shape3 data
      ((missingNames_eq_nil_iff data ComarcaData.capital).mpr hall1)
      ((missingNames_eq_nil_iff data ComarcaData.map_url).mpr hall2)
      ((missingNames_ne_nil_iff data ComarcaData.escut_url).mpr hex)
  · intro hall
    exact validate_data_shape4 data
      ((missingNames_eq_nil_iff data ComarcaData.capital).mpr (fun c hc => (hall c hc).1))
      ((missingNames_eq_nil_iff data ComarcaData.map_url).mpr (fun c hc => (hall c hc).2.1))
      ((missingNames_eq_nil_iff data ComarcaData.escut_url).mpr (fun c hc => (hall c hc).2.2))

/-- Witness for C2: a run where one record misses capital and a different one
misses map_url reports only the capital gap and fails; a record missing only
escut_url warns and succeeds. -/
theorem claim_C2_witness :
    validate_data [⟨"A", none, some "m", some "e"⟩, ⟨"B", some "c", none, some "e"⟩] =
      (false, [⟨.error, missingMsg "capital"
        (missingNames [⟨"A", none, some "m", some "e"⟩, ⟨"B", some "c", none, some "e"⟩]
          ComarcaData.capital)⟩]) ∧
    validate_data [⟨"C", some "cap", some "m", none⟩] =
      (true, [⟨.warning, missingMsg "escut_url"
        (missingNames [⟨"C", some "cap", some "m", none⟩] ComarcaData.escut_url)⟩]) :=
  ⟨(claim_C2 [⟨"A", none, some "m", some "e"⟩, ⟨"B", some "c", none, some "e"⟩]).2.1
      ⟨⟨"A", none, some "m", some "e"⟩, by decide, by decide⟩,
   (claim_C2 [⟨"C", some "cap", some "m", none⟩]).2.2.2.1
      (by decide) (by decide) ⟨⟨"C", some "cap", some "m", none⟩, by decide, by decide⟩⟩

/-- C9: a record with `escut_url` or `map_url` unset makes note building fail
(the basename of an absent value raises) rather than return a malformed tag;
the case is reachable since a record missing only `escut_url` passes
validation yet `get_notes` fails on any list containing such a record. -/
theorem claim_C9 (c : ComarcaData) (h : c.escut_url = none ∨ c.map_url = none) :
    get_note_fields c = none ∧
    (∀ data : List ComarcaData, c ∈ data → get_notes data = none) ∧
    (validate_data [bagesNoEscut]).1 = true ∧
    get_notes [bagesNoEscut] = none := by
  have hnone : get_note_fields c = none := by
    rcases h with h | h
    · simp [get_note_fields, h]
    · cases he : c.escut_url <;> simp [get_note_fields, he, h]
  exact ⟨hnone, fun data hmem => mapM_option_eq_none _ data c hmem hnone, by decide, by decide⟩

/-- Witness for C9: the record missing only its escut field fails note
building, alone and inside a list. -/
theorem claim_C9_witness :
    get_note_fields bagesNoEscut = none ∧
    get_notes [bagesNoEscut] = none :=
  ⟨(claim_C9 bagesNoEscut (Or.inl rfl)).1,
   (claim_C9 bagesNoEscut (Or.inl rfl)).2.1 [bagesNoEscut] (by simp)⟩

/-! ## Claims about the category filter and the alternate client -/

/-- Sample category member: an actual comarca sub-category. -/
def catBages : CatMember :=
  ⟨"Categoria:Bages", 14, ["Categoria:Comarques de Catalunya"]⟩

/-- Sample category member: the parent-like meta category (title contains
"de Catalunya"). -/
def catParent : CatMember :=
  ⟨"Categoria:Comarques de Catalunya", 14, ["Categoria:Catalunya"]⟩

/-- Sample category member: a category with the wrong parent categories. -/
def catOther : CatMember :=
  ⟨"Categoria:Pirineus", 14, ["Categoria:Geografia de Catalunya"]⟩

/-- Sample category member: an ordinary article (non-category namespace). -/
def catArticle : CatMember :=
  ⟨"Bages", 0, ["Categoria:Comarques de Catalunya"]⟩

/-- C3: the comarca listing keeps exactly the members that are in the
category namespace, whose lowercased title does not contain "de catalunya",
and one of whose parent categories lowercases to
"categoria:comarques de catalunya"; the alternate client keeps the same
members, turning each into a record named after the title's last
colon-separated part. -/
theorem claim_C3 (members : List CatMember) :
    (∀ p : CatMember, p ∈ get_comarques_categories members ↔
      (p ∈ members ∧ p.ns = categoryNamespace ∧
        containsSub (pyLower p.title) "de catalunya" = false ∧
        ∃ cat ∈ p.categories, pyLower cat = "categoria:comarques de catalunya")) ∧
    handler_get_comarques members =
      (get_comarques_categories members).map
        (fun p => { comarca := lastSplitColon p.title }) := by
  refine ⟨?_, rfl⟩
  intro p
  by_cases hc : containsSub (pyLower p.title) "de catalunya"
  · simp [get_comarques_categories, List.mem_filter, is_comarca, categoryNamespace, hc]
  · simp [get_comarques_categories, List.mem_filter, is_comarca, categoryNamespace, hc,
      List.any_eq_true]

/-- Witness for C3: the genuine sub-category is kept; the meta category whose
title contains "de Catalunya" is excluded. -/
theorem claim_C3_witness :
    catBages ∈ get_comarques_categories [catParent, catBages, catOther, catArticle] ∧
    catParent ∉ get_comarques_categories [catParent, catBages, catOther, catArticle] := by
  constructor
  · exact ((claim_C3 [catParent, catBages, catOther, catArticle]).1 catBages).mpr
      ⟨by decide, by decide, by decide,
        "Categoria:Comarques de Catalunya", by decide, by decide⟩
  · intro hm
    have h := ((claim_C3 [catParent, catBages, catOther, catArticle]).1 catParent).mp hm
    exact absurd h.2.2.1 (by decide)

/-- The population fold of the alternate client touches only the two media
fields. -/
theorem populate_foldl_frame (info : String → Option String) :
    ∀ (titles : List String) (c : ComarcaPage),
      (titles.foldl (populate_step info) c).comarca = c.comarca ∧
      (titles.foldl (populate_step info) c).capital = c.capital := by
  intro titles
  induction titles with
  | nil => intro c; exact ⟨rfl, rfl⟩
  | cons t rest ih =>
    intro c
    have hstep : (populate_step info c t).comarca = c.comarca ∧
        (populate_step info c t).capital = c.capital := by
      unfold populate_step
      by_cases h1 : containsSub t "Mapa" <;>
        by_cases h2 : containsSub t "Escut" || containsSub t "Coat of arms" <;>
        simp [h1, h2]
    rw [List.foldl_cons]
    exact ⟨(ih _).1.trans hstep.1, (ih _).2.trans hstep.2⟩

/-- C10: the alternate client's image population modifies at most the two
media fields of a record: for every environment and record, the comarca name
and the capital are unchanged, whatever the returned image titles are. -/
theorem claim_C10 (env : HandlerEnv) (c : ComarcaPage) :
    (get_images_for_comarca env c).comarca = c.comarca ∧
    (get_images_for_comarca env c).capital = c.capital :=
  populate_foldl_frame env.imageInfo (env.imageTitles c.comarca) c

/-! ## Claims about the downloader and the raw API calls -/

/-- Effects in which the fetch and the status check succeed, `open`
succeeds, and `write` raises after one of the two bytes reached the disk. -/
def fxWriteFails : DlEffects :=
  { getResult := .ok [7, 7], statusResult := .ok (), openResult := .ok (),
    writeResult := .error ([7], "No space left on device") }

/-- C6 counterexample: a filesystem failure raised by `write` is caught at
the boundary and logged like every other failure, but the destination is not
left absent — `open(filename, 'wb')` already created/truncated the file, and
the partially written byte remains there — refuting the claim's "no partial
or corrupt file" for the filesystem failures it covers. -/
theorem claim_C6_counterexample :
    (download_svg fxWriteFails "http://example.org/x.svg" "imgs/x.svg").logs =
      [⟨.error, "Failed to download http://example.org/x.svg: No space left on device"⟩] ∧
    (download_svg fxWriteFails "http://example.org/x.svg" "imgs/x.svg").destination ≠
      FileState.absent ∧
    (download_svg fxWriteFails "http://example.org/x.svg" "imgs/x.svg").destination =
      FileState.file [7] := by
  exact ⟨rfl, by decide, rfl⟩

/-- C6 (amended): the download operation never raises to its caller — every
failure of the body, wherever it stops, is caught, logged as an error naming
the URL and the exception text, and the call returns normally.  A failure
raised before the destination is opened (by the fetch, the status check, or
`open` itself) leaves the destination absent, with no partial or corrupt
file; a failure raised by `write` happens after `open(filename, 'wb')`
already created/truncated the destination, which is then left holding the
partially written bytes; full success leaves the body's content at the
destination with no log. -/
theorem claim_C6 (fx : DlEffects) (url filename : String) :
    (∀ fs e, download_body fx = (fs, .error e) →
      download_svg fx url filename =
        ⟨fs, [⟨.error, "Failed to download " ++ url ++ ": " ++ e⟩]⟩) ∧
    (∀ fs content, download_body fx = (fs, .ok content) →
      download_svg fx url filename = ⟨fs, []⟩) ∧
    (∀ e, fx.getResult = .error e →
      download_svg fx url filename =
        ⟨.absent, [⟨.error, "Failed to download " ++ url ++ ": " ++ e⟩]⟩) ∧
    (∀ content e, fx.getResult = .ok content → fx.statusResult = .error e →
      download_svg fx url filename =
        ⟨.absent, [⟨.error, "Failed to download " ++ url ++ ": " ++ e⟩]⟩) ∧
    (∀ content e, fx.getResult = .ok content → fx.statusResult = .ok () →
      fx.openResult = .error e →
      download_svg fx url filename =
        ⟨.absent, [⟨.error, "Failed to download " ++ url ++ ": " ++ e⟩]⟩) ∧
    (∀ content written e, fx.getResult = .ok content → fx.statusResult = .ok () →
      fx.openResult = .ok () → fx.writeResult = .error (written, e) →
      download_svg fx url filename =
        ⟨.file written, [⟨.error, "Failed to download " ++ url ++ ": " ++ e⟩]⟩) ∧
    (∀ content, fx.getResult = .ok content → fx.statusResult = .ok () →
      fx.openResult = .ok () → fx.writeResult = .ok () →
      download_svg fx url filename = ⟨.file content, []⟩) := by
  refine ⟨?_, ?_, ?_, ?_, ?_, ?_, ?_⟩
  · intro fs e hbody
    simp [download_svg, hbody]
  · intro fs content hbody
    simp [download_svg, hbody]
  · intro e hget
    simp [download_svg, download_body, hget]
  · intro content e hget hstatus
    simp [download_svg, download_body, hget, hstatus]
  · intro content e hget hstatus hopen
    simp [download_svg, download_body, hget, hstatus, hopen]
  · intro content written e hget hstatus hopen hwrite
    simp [download_svg, download_body, hget, hstatus, hopen, hwrite]
  · intro content hget hstatus hopen hwrite
    simp [download_svg, download_body, hget, hstatus, hopen, hwrite]

/-- Effects in which the fetch itself raises (unreachable URL). -/
def fxGetFails : DlEffects :=
  { getResult := .error "connection refused", statusResult := .ok (),
    openResult := .ok (), writeResult := .ok () }

/-- Effects in which every stage succeeds. -/
def fxAllOk : DlEffects :=
  { getResult := .ok [7, 7], statusResult := .ok (),
    openResult := .ok (), writeResult := .ok () }

/-- Witness for C6: an unreachable URL logs the error and leaves the
destination absent; a failing write logs the error but leaves the partial
file; a clean run writes the body with no log. -/
theorem claim_C6_witness :
    download_svg fxGetFails "http://example.org/x.svg" "imgs/x.svg" =
      ⟨.absent, [⟨.error, "Failed to download http://example.org/x.svg: connection refused"⟩]⟩ ∧
    download_svg fxWriteFails "http://example.org/x.svg" "imgs/x.svg" =
      ⟨.file [7],
        [⟨.error, "Failed to download http://example.org/x.svg: No space left on device"⟩]⟩ ∧
    download_svg fxAllOk "http://example.org/x.svg" "imgs/x.svg" = ⟨.file [7, 7], []⟩ :=
  ⟨(claim_C6 fxGetFails "http://example.org/x.svg" "imgs/x.svg").2.2.1
      "connection refused" rfl,
   (claim_C6 fxWriteFails "http://example.org/x.svg" "imgs/x.svg").2.2.2.2.2.1
      [7, 7] [7] "No space left on device" rfl rfl rfl rfl,
   (claim_C6 fxAllOk "http://example.org/x.svg" "imgs/x.svg").2.2.2.2.2.2
      [7, 7] rfl rfl rfl rfl⟩

/-- C7 counterexample: on a response whose single page entry lacks the
`images` key, the primary `get_image_titles` (src/run.py) subscripts the
missing key and raises `KeyError` — it does not return the empty list — so
the claim fails for the primary variant. -/
theorem claim_C7_counterexample :
    get_image_titles ⟨[("726947", ⟨none⟩)]⟩ = .error "KeyError: images" ∧
    get_image_titles ⟨[("726947", ⟨none⟩)]⟩ ≠ .ok [] := by
  exact ⟨rfl, by simp [get_image_titles, firstPage]⟩

/-- C7 (amended): only the alternate client treats a missing `images` key as
zero images, returning the empty title list and logging a warning naming the
page; the primary variant instead raises a key-lookup error on such a
response. -/
theorem claim_C7 (page_title pid : String) (rest : List (String × PageEntry)) :
    handler_get_image_titles page_title ⟨(pid, ⟨none⟩) :: rest⟩ =
      .ok ([], [⟨.warning, "No images found for " ++ page_title⟩]) ∧
    get_image_titles ⟨(pid, ⟨none⟩) :: rest⟩ = .error "KeyError: images" :=
  ⟨rfl, rfl⟩

/-! ### Replacement lemmas for the `titles` normalization (C8) -/

theorem replaceFuel_no_occ (pat rep : List Char) :
    ∀ (fuel : Nat) (l : List Char), containsSubAux pat l = false →
      replaceFuel pat rep fuel l = l := by
  intro fuel
  induction fuel with
  | zero => intro l _; cases l <;> rfl
  | succ n ih =>
    intro l h
    cases l with
    | nil => rfl
    | cons c rest =>
      simp only [containsSubAux, Bool.or_eq_false_iff] at h
      rw [replaceFuel, h.1]
      simp [ih rest h.2]

theorem replaceFuel_leading (pat rep r : List Char) (n : Nat)
    (hpat : pat ≠ []) (h : containsSubAux pat r = false) :
    replaceFuel pat rep (n + 1) (pat ++ r) = rep ++ r := by
  have hpre : pat.isPrefixOf (pat ++ r) = true := by
    rw [List.isPrefixOf_iff_prefix]
    exact List.prefix_append pat r
  cases hp : pat with
  | nil => exact absurd hp hpat
  | cons p ps =>
    subst hp
    rw [List.cons_append, replaceFuel]
    rw [List.cons_append] at hpre
    rw [hpre]
    simp only [if_true]
    rw [← List.cons_append, List.drop_left]
    rw [replaceFuel_no_occ _ _ _ _ h]

theorem pyReplace_no_occ (s pat rep : String) (hpat : pat.data ≠ [])
    (h : containsSub s pat = false) : pyReplace s pat rep = s := by
  unfold pyReplace
  rw [if_neg (by simpa [List.isEmpty_iff] using hpat)]
  refine String.ext ?_
  show replaceFuel pat.data rep.data s.data.length s.data = s.data
  rw [replaceFuel_no_occ _ _ _ _ h]

theorem pyReplace_leading (pat rep r : String) (hpat : pat.data ≠ [])
    (h : containsSub r pat = false) :
    pyReplace (pat ++ r) pat rep = rep ++ r := by
  unfold pyReplace
  rw [if_neg (by simpa [List.isEmpty_iff] using hpat)]
  have hlen : 0 < pat.data.length := List.length_pos.mpr hpat
  have hpos : (pat.data ++ r.data).length = (pat.data.length - 1 + r.data.length) + 1 := by
    rw [List.length_append]; omega
  refine String.ext ?_
  show replaceFuel pat.data rep.data (pat ++ r).data.length (pat ++ r).data = (rep ++ r).data
  rw [String.data_append, hpos, replaceFuel_leading pat.data rep.data r.data _ hpat h,
    String.data_append]

/-- C8 (amended): the media-repository query's `titles` value is the input
title with every occurrence of "Fitxer:" replaced by "File:" — Python
`str.replace` rewrites all occurrences, not only a leading prefix.  A title
consisting of the "Fitxer:" prefix followed by a remainder free of further
occurrences is queried with the prefix rewritten — in particular
"Fitxer:Bages Mapa.svg" is queried as "File:Bages Mapa.svg" — and a title
containing no occurrence anywhere is passed unchanged. -/
theorem claim_C8 (t r s : String)
    (h1 : t = "Fitxer:" ++ r) (h2 : containsSub r "Fitxer:" = false)
    (h3 : containsSub s "Fitxer:" = false) :
    get_image_info_params t =
      [("action", "query"), ("prop", "imageinfo"), ("format", "json"), ("iiprop", "url"),
       ("titles", "File:" ++ r)] ∧
    get_image_info_params s =
      [("action", "query"), ("prop", "imageinfo"), ("format", "json"), ("iiprop", "url"),
       ("titles", s)] ∧
    get_image_info_params "Fitxer:Bages Mapa.svg" =
      [("action", "query"), ("prop", "imageinfo"), ("format", "json"), ("iiprop", "url"),
       ("titles", "File:Bages Mapa.svg")] := by
  subst h1
  refine ⟨?_, ?_, by decide⟩
  · unfold get_image_info_params
    rw [pyReplace_leading "Fitxer:" "File:" r (by decide) h2]
  · unfold get_image_info_params
    rw [pyReplace_no_occ s "Fitxer:" "File:" (by decide) h3]

/-- Witness for C8 at the spec's own example title and an unrelated plain
title. -/
theorem claim_C8_witness :
    get_image_info_params ("Fitxer:" ++ "Bages Mapa.svg") =
      [("action", "query"), ("prop", "imageinfo"), ("format", "json"), ("iiprop", "url"),
       ("titles", "File:" ++ "Bages Mapa.svg")] ∧
    get_image_info_params "Mapa de Bages.svg" =
      [("action", "query"), ("prop", "imageinfo"), ("format", "json"), ("iiprop", "url"),
       ("titles", "Mapa de Bages.svg")] ∧
    get_image_info_params "Fitxer:Bages Mapa.svg" =
      [("action", "query"), ("prop", "imageinfo"), ("format", "json"), ("iiprop", "url"),
       ("titles", "File:Bages Mapa.svg")] :=
  claim_C8 ("Fitxer:" ++ "Bages Mapa.svg") "Bages Mapa.svg" "Mapa de Bages.svg"
    rfl (by decide) (by decide)

/-- C8 counterexample: "Mapa Fitxer:Bages.svg" carries no leading "Fitxer:"
prefix, yet it is not passed unchanged — the interior occurrence is rewritten
too — refuting the claim's leading-prefix-only reading. -/
theorem claim_C8_counterexample :
    pyStartsWith "Mapa Fitxer:Bages.svg" "Fitxer:" = false ∧
    get_image_info_params "Mapa Fitxer:Bages.svg" ≠
      [("action", "query"), ("prop", "imageinfo"), ("format", "json"), ("iiprop", "url"),
       ("titles", "Mapa Fitxer:Bages.svg")] ∧
    get_image_info_params "Mapa Fitxer:Bages.svg" =
      [("action", "query"), ("prop", "imageinfo"), ("format", "json"), ("iiprop", "url"),
       ("titles", "Mapa File:Bages.svg")] := by
  exact ⟨by decide, by decide, by decide⟩

/-! ### Search-equivalence lemmas for the scraper (C5) -/

/-- The row search fails exactly when no proper descendant is a matching
`th`. -/
theorem findCapitalRow_eq_none_iff :
    ∀ h : Html, (findCapitalRow h = none ↔ hasCapitalTh h = false) := by
  apply findCapitalRow.induct
    (fun h => findCapitalRow h = none ↔ hasCapitalTh h = false)
    (fun parent l => findCapitalRowIn parent l = none ↔ hasCapitalThIn l = false)
  · intro s; simp [findCapitalRow, hasCapitalTh]
  · intro t cs ih
    simpa [findCapitalRow, hasCapitalTh] using ih
  · intro parent; simp [findCapitalRowIn, hasCapitalThIn]
  · intro parent c rest hc
    simp [findCapitalRowIn, hasCapitalThIn, hc]
  · intro parent c rest hc r hr ih1
    have hct : hasCapitalTh c = true := by
      cases hcc : hasCapitalTh c
      · exact absurd (ih1.mpr hcc) (by simp [hr])
      · rfl
    simp [findCapitalRowIn, hasCapitalThIn, hc, hr, hct]
  · intro parent c rest hc hnone ih1 ih2
    have hcf : hasCapitalTh c = false := ih1.mp hnone
    simp [findCapitalRowIn, hasCapitalThIn, hc, hnone, hcf, ih2]

/-- The link search fails exactly when no proper descendant is an `a`
element. -/
theorem findLink_eq_none_iff :
    ∀ h : Html, (findLink h = none ↔ hasLink h = false) := by
  apply findLink.induct
    (fun h => findLink h = none ↔ hasLink h = false)
    (fun l => findLinkIn l = none ↔ hasLinkIn l = false)
  · intro s; simp [findLink, hasLink]
  · intro t cs ih
    simpa [findLink, hasLink] using ih
  · simp [findLinkIn, hasLinkIn]
  · intro c rest hc
    simp [findLinkIn, hasLinkIn, hc]
  · intro c rest hc a ha ih1
    have hct : hasLink c = true := by
      cases hcc : hasLink c
      · exact absurd (ih1.mpr hcc) (by simp [ha])
      · rfl
    simp [findLinkIn, hasLinkIn, hc, ha, hct]
  · intro c rest hc hnone ih1 ih2
    have hcf : hasLink c = false := ih1.mp hnone
    simp [findLinkIn, hasLinkIn, hc, hnone, hcf, ih2]

/-- C5: when no header cell with exact text "Capital" exists, the scraper
returns "Capital row not found"; when one exists the row search succeeds, and
on the found row: no hyperlink gives "Capital not found in the expected
format", while a first hyperlink gives that link's visible text. -/
theorem claim_C5 (doc : Html) :
    (hasCapitalTh doc = false → get_comarca_capital_from_html doc = "Capital row not found") ∧
    (hasCapitalTh doc = true → findCapitalRow doc ≠ none) ∧
    (∀ row, findCapitalRow doc = some row → hasLink row = false →
      get_comarca_capital_from_html doc = "Capital not found in the expected format") ∧
    (∀ row a, findCapitalRow doc = some row → findLink row = some a →
      get_comarca_capital_from_html doc = htmlText a) := by
  refine ⟨?_, ?_, ?_, ?_⟩
  · intro h
    simp only [get_comarca_capital_from_html, (findCapitalRow_eq_none_iff doc).mpr h]
  · intro h hnone
    have hfalse := (findCapitalRow_eq_none_iff doc).mp hnone
    rw [h] at hfalse
    cases hfalse
  · intro row hrow hnl
    simp only [get_comarca_capital_from_html, hrow, (findLink_eq_none_iff row).mpr hnl]
  · intro row a hrow ha
    simp only [get_comarca_capital_from_html, hrow, ha]

/-- Sample page: the Capital header row holds a link with text "Manresa". -/
def docHappy : Html :=
  .elem "table" [.elem "tr" [.elem "th" [.txt "Capital"], .elem "td" [.elem "a" [.txt "Manresa"]]]]

/-- The row of `docHappy`. -/
def rowHappy : Html :=
  .elem "tr" [.elem "th" [.txt "Capital"], .elem "td" [.elem "a" [.txt "Manresa"]]]

/-- Sample page: a Capital header row without any link. -/
def docNoLink : Html :=
  .elem "table" [.elem "tr" [.elem "th" [.txt "Capital"], .elem "td" [.txt "Manresa"]]]

/-- The row of `docNoLink`. -/
def rowNoLink : Html :=
  .elem "tr" [.elem "th" [.txt "Capital"], .elem "td" [.txt "Manresa"]]

/-- Sample page: no header cell with text "Capital" at all. -/
def docNoRow : Html :=
  .elem "table" [.elem "tr" [.elem "td" [.txt "Nothing"]]]

/-- Witness for C5: the three behaviors at concrete pages. -/
theorem claim_C5_witness :
    get_comarca_capital_from_html docHappy = "Manresa" ∧
    get_comarca_capital_from_html docNoLink = "Capital not found in the expected format" ∧
    get_comarca_capital_from_html docNoRow = "Capital row not found" := by
  refine ⟨?_, ?_, ?_⟩
  · have h := (claim_C5 docHappy).2.2.2 rowHappy (.elem "a" [.txt "Manresa"])
      (by simp [docHappy, rowHappy, findCapitalRow, findCapitalRowIn, isCapitalTh])
      (by simp [rowHappy, findLink, findLinkIn, isLinkTag])
    rw [h]
    simp [htmlText, htmlTextIn]
  · exact (claim_C5 docNoLink).2.2.1 rowNoLink
      (by simp [docNoLink, rowNoLink, findCapitalRow, findCapitalRowIn, isCapitalTh])
      (by simp [rowNoLink, hasLink, hasLinkIn, isLinkTag])
  · exact (claim_C5 docNoRow).1
      (by simp [docNoRow, hasCapitalTh, hasCapitalThIn, isCapitalTh])

/-! ### Assembly lemmas (C4) -/

theorem setMediaField_map (d : ComarcaData) (path : String) :
    setMediaField d "map" path = { d with map_url := some path } := rfl

theorem setMediaField_escut (d : ComarcaData) (path : String) :
    setMediaField d "escut" path = { d with escut_url := some path } := rfl

theorem setMediaField_comarca (d : ComarcaData) (field path : String) :
    (setMediaField d field path).comarca = d.comarca := by
  by_cases h1 : field == "map"
  · simp [setMediaField, h1]
  · by_cases h2 : field == "escut" <;> simp [setMediaField, h1, h2]

theorem mediaStep_nil (env : Env) (name slug : String) (st : AssembleOut) (field : String) :
    mediaStep env name slug st [] field =
      { st with logs := st.logs ++ [⟨.warning, "No " ++ field ++ " found for " ++ name⟩] } := rfl

theorem mediaStep_comarca (env : Env) (name slug : String) (st : AssembleOut)
    (urls : List (Option String)) (field : String) :
    (mediaStep env name slug st urls field).record.comarca = st.record.comarca := by
  cases urls <;> simp [mediaStep, setMediaField_comarca]

theorem mediaStep_escut_map_url (env : Env) (name slug : String) (st : AssembleOut)
    (urls : List (Option String)) :
    (mediaStep env name slug st urls "escut").record.map_url = st.record.map_url := by
  cases urls <;> simp [mediaStep, setMediaField_escut]

theorem mediaStep_map_escut_url (env : Env) (name slug : String) (st : AssembleOut)
    (urls : List (Option String)) :
    (mediaStep env name slug st urls "map").record.escut_url = st.record.escut_url := by
  cases urls <;> simp [mediaStep, setMediaField_map]

theorem mediaStep_logs_mono (env : Env) (name slug : String) (st : AssembleOut)
    (urls : List (Option String)) (field : String) (e : LogEntry) (he : e ∈ st.logs) :
    e ∈ (mediaStep env name slug st urls field).logs := by
  cases urls <;> simp [mediaStep] <;> exact Or.inl he

theorem mediaStep_record_congr (env env' : Env) (name slug : String) (st st' : AssembleOut)
    (urls urls' : List (Option String)) (field : String)
    (hrec : st.record = st'.record) (hu : urls = urls') :
    (mediaStep env name slug st urls field).record =
      (mediaStep env' name slug st' urls' field).record := by
  subst hu
  cases urls <;> simp [mediaStep, hrec]

/-- The success shape of `get_comarca_data`: when the image-title listing
succeeds, the result is the two media steps folded over the freshly built
record. -/
theorem get_comarca_data_ok (env : Env) (comarca_name : String) (titles : List String)
    (h : get_image_titles (env.imagesResponse comarca_name) = .ok titles) :
    get_comarca_data env comarca_name = .ok (
      mediaStep env comarca_name (pyReplace comarca_name " " "_")
        (mediaStep env comarca_name (pyReplace comarca_name " " "_")
          ⟨⟨comarca_name, some (get_comarca_capital_from_html (env.pageHtml
              (wikiPageUrl (pyReplace comarca_name " " "_")))), none, none⟩, [], []⟩
          ((titles.filter (fun image => pyEndsWith image "a Catalunya.svg")).map env.imageInfo)
          "map")
        ((titles.filter (fun image => containsSub image "Coat")).map env.imageInfo)
        "escut") := by
  unfold get_comarca_data
  rw [h]
  rfl

/-- C4: whenever the image-title listing succeeds, the assembly operation
returns a record (never an absent result) whose comarca is the input name;
for each media kind, no candidate title leaves the field unset with a warning
naming the comarca and the kind, while at least one candidate sets the field
to `imgs/<slug>_<kind>.svg` (slug: spaces replaced by underscores); and the
returned record is the same whatever the outcomes of the downloads. -/
theorem claim_C4 (env : Env) (comarca_name : String) (titles : List String)
    (h : get_image_titles (env.imagesResponse comarca_name) = .ok titles) :
    ∃ out : AssembleOut, get_comarca_data env comarca_name = .ok out ∧
      out.record.comarca = comarca_name ∧
      (titles.filter (fun image => pyEndsWith image "a Catalunya.svg") = [] →
        out.record.map_url = none ∧
        (⟨.warning, "No map found for " ++ comarca_name⟩ : LogEntry) ∈ out.logs) ∧
      (titles.filter (fun image => pyEndsWith image "a Catalunya.svg") ≠ [] →
        out.record.map_url = some (mediaPath (pyReplace comarca_name " " "_") "map")) ∧
      (titles.filter (fun image => containsSub image "Coat") = [] →
        out.record.escut_url = none ∧
        (⟨.warning, "No escut found for " ++ comarca_name⟩ : LogEntry) ∈ out.logs) ∧
      (titles.filter (fun image => containsSub image "Coat") ≠ [] →
        out.record.escut_url = some (mediaPath (pyReplace comarca_name " " "_") "escut")) ∧
      (∀ dl' : Option String → String → DlEffects, ∃ out' : AssembleOut,
        get_comarca_data { env with dl := dl' } comarca_name = .ok out' ∧
        out'.record = out.record) := by
  refine ⟨_, get_comarca_data_ok env comarca_name titles h, ?_, ?_, ?_, ?_, ?_, ?_⟩
  · rw [mediaStep_comarca, mediaStep_comarca]
  · intro hm
    rw [hm]
    constructor
    · rw [mediaStep_escut_map_url]
      simp [mediaStep]
    · apply mediaStep_logs_mono
      simp [mediaStep]
  · intro hm
    cases hfilter : titles.filter (fun image => pyEndsWith image "a Catalunya.svg") with
    | nil => exact absurd hfilter hm
    | cons t ts =>
      rw [mediaStep_escut_map_url]
      simp [mediaStep, setMediaField_map]
  · intro hesc
    rw [hesc]
    constructor
    · simp only [List.map_nil, mediaStep_nil]
      rw [mediaStep_map_escut_url]
    · simp only [List.map_nil, mediaStep_nil]
      simp
  · intro hesc
    cases hfilter : titles.filter (fun image => containsSub image "Coat") with
    | nil => exact absurd hfilter hesc
    | cons t ts =>
      simp [mediaStep, setMediaField_escut]
  · intro dl'
    have h' : get_image_titles (Env.imagesResponse { env with dl := dl' } comarca_name) =
        .ok titles := h
    refine ⟨_, get_comarca_data_ok { env with dl := dl' } comarca_name titles h', ?_⟩
    apply mediaStep_record_congr
    · apply mediaStep_record_congr
      · rfl
      · rfl
    · rfl

/-- Concrete oracle environment for the C4 witness: the listing serves one
map candidate, one escut candidate and one non-SVG title; every download
attempt succeeds. -/
def envC4 : Env :=
  { imagesResponse := fun _ =>
      ⟨[("100", ⟨some [⟨"Mapa de la comarca a Catalunya.svg"⟩,
        ⟨"Coat of arms of Bages.svg"⟩, ⟨"Photo.jpg"⟩]⟩)]⟩,
    imageInfo := fun t => some ("https://upload.example/" ++ t),
    pageHtml := fun _ => docHappy,
    dl := fun _ _ =>
      { getResult := .ok [60, 61, 62], statusResult := .ok (),
        openResult := .ok (), writeResult := .ok () } }

/-- Witness for C4 at a comarca name containing a space: the record is
returned with both media paths derived from the underscored slug. -/
theorem claim_C4_witness :
    (get_comarca_data envC4 "el Bages").map
        (fun out => (out.record.comarca, out.record.map_url, out.record.escut_url)) =
      .ok ("el Bages", some "imgs/el_Bages_map.svg", some "imgs/el_Bages_escut.svg") := by
  obtain ⟨out, hok, hcom, -, hmap, -, hesc, -⟩ :=
    claim_C4 envC4 "el Bages"
      ["Mapa de la comarca a Catalunya.svg", "Coat of arms of Bages.svg"] (by rfl)
  rw [hok]
  simp only [Except.map]
  rw [hcom, hmap (by decide), hesc (by decide)]
  rfl

/-! ## Evaluation checks of the primitive embeddings -/
example : pathName "imgs/Bages_escut.svg" = "Bages_escut.svg" := by decide
example : pyReplace "Fitxer:Bages Mapa.svg" "Fitxer:" "File:" = "File:Bages Mapa.svg" := by decide
example : pyReplace "a Fitxer:b" "Fitxer:" "File:" = "a File:b" := by decide
example : lastSplitColon "Categoria:Bages" = "Bages" := by decide
example : lastSplitColon "Bages" = "Bages" := by decide
example : (validate_data [⟨"A", none, some "m", none⟩, ⟨"B", some "c", none, none⟩]) =
    (false, [⟨.error, "Missing capital for comarques: A"⟩]) := by decide
example : (validate_data [⟨"C", some "cap", some "m", none⟩]) =
    (true, [⟨.warning, "Missing escut_url for comarques: C"⟩]) := by decide
example : get_notes [⟨"Bages", some "Manresa", some "imgs/Bages_map.svg", some "imgs/Bages_escut.svg"⟩] =
    some [[some "Manresa", some "", some "", some "Bages", some "",
      some "<img src=\"Bages_escut.svg\">", some "",
      some "<img src=\"Bages_map.svg\">"]] := by decide

end AnkiCatalunya
